import Mathlib

/-!
# Shallow embedding of `dask_cuda/dgx.py`

The repository's single source file defines one function, `DGX`, which
validates its configuration flags, derives a per-worker network-adapter
assignment, and invokes three external collaborators: the worker-spec
builder `worker_spec`, the environment builder `get_ucx_env`, and the
cluster constructor `SpecCluster` (handed a scheduler descriptor built
inline).

We embed `DGX` as a total function from its arguments to
`Except DGXError DGXTrace`, where the trace records exactly the arguments
each collaborator was invoked with together with the scheduler descriptor,
mirroring the Python control flow: the `TypeError` is raised before any
collaborator call, so the error branch carries no trace.

`get_ucx_env` and `worker_spec` are not part of the excerpted source;
where a claim depends on what `get_ucx_env` produces, a spec-modelled
definition is used (marked in its doc comment).
-/

namespace DaskCudaDGX

/-- Python values default to `None` for `interface`, `CUDA_VISIBLE_DEVICES`
and `protocol`; we model those as `Option String`.  Extra `**kwargs` are
modelled as an association list of strings. -/
structure DGXArgs where
  interface : Option String := none
  dashboard_address : String := ":8787"
  threads_per_worker : Nat := 1
  silence_logs : Bool := true
  CUDA_VISIBLE_DEVICES : Option String := none
  protocol : Option String := none
  enable_tcp_over_ucx : Bool := false
  enable_infiniband : Bool := false
  enable_nvlink : Bool := false
  kwargs : List (String × String) := []
deriving Repr, DecidableEq

/-- In the Python source `ucx_net_devices` is either the empty string or a
lambda from the worker index to an adapter name. -/
inductive UcxNetDevices where
  | str : String → UcxNetDevices
  | fn : (Nat → String) → UcxNetDevices

/-- The single error kind `DGX` raises itself: `TypeError` with a message. -/
inductive DGXError where
  | typeError : String → DGXError
deriving Repr, DecidableEq

/-- Arguments `DGX` passes to the external worker-spec builder
`worker_spec` (all passed by keyword in the source, plus `**kwargs`). -/
structure WorkerSpecArgs where
  interface : Option String
  dashboard_address : String
  threads_per_worker : Nat
  silence_logs : Bool
  CUDA_VISIBLE_DEVICES : Option String
  enable_tcp_over_ucx : Bool
  enable_infiniband : Bool
  ucx_net_devices : UcxNetDevices
  enable_nvlink : Bool
  protocol : Option String
  kwargs : List (String × String)

/-- Arguments `DGX` passes to the external environment builder
`get_ucx_env`. -/
structure GetUcxEnvArgs where
  interface : Option String
  enable_tcp : Bool
  enable_infiniband : Bool
  enable_nvlink : Bool
deriving Repr, DecidableEq

/-- Modelled from the spec: the environment mapping produced by the
external builder `get_ucx_env`, whose code is not in the excerpt.  We
abstract the mapping by which transports its environment variables
enable.  Per the spec: "Enabling either fabric toggle implies
TCP-over-fabric is also effectively enabled in the resulting environment
mapping" and "When both fabric toggles are false, no fabric-specific
environment variables are set". -/
structure UcxEnv where
  tcp : Bool
  infiniband : Bool
  nvlink : Bool
deriving Repr, DecidableEq

/-- Modelled from the spec: the external environment builder
`get_ucx_env` (its source is not in the excerpt).  Fabric-specific
variables are set exactly when the corresponding toggle is on, and TCP
over UCX is effectively enabled whenever requested directly or implied by
either fabric toggle. -/
def get_ucx_env (a : GetUcxEnvArgs) : UcxEnv :=
  { tcp := a.enable_tcp || a.enable_infiniband || a.enable_nvlink
    infiniband := a.enable_infiniband
    nvlink := a.enable_nvlink }

/-- The scheduler descriptor dict built inline in `DGX`: its `"options"`
entry. -/
structure SchedulerOptions where
  interface : Option String
  protocol : Option String
  dashboard_address : String
  env : UcxEnv

/-- The scheduler descriptor dict `{"cls": Scheduler, "options": {...}}`. -/
structure SchedulerDescriptor where
  cls : String
  options : SchedulerOptions

/-- Arguments `DGX` passes to the external cluster constructor
`SpecCluster`.  The `workers` argument is the value returned by the
external `worker_spec` builder; since that builder is outside the excerpt
we identify the produced spec with the arguments it was built from. -/
structure SpecClusterArgs where
  workers : WorkerSpecArgs
  scheduler : SchedulerDescriptor
  silence_logs : Bool
  kwargs : List (String × String)

/-- The record of one successful `DGX` run: the arguments of every
collaborator invocation and the scheduler descriptor. -/
structure DGXTrace where
  worker_spec_args : WorkerSpecArgs
  get_ucx_env_args : GetUcxEnvArgs
  ucx_env : UcxEnv
  scheduler : SchedulerDescriptor
  spec_cluster_args : SpecClusterArgs

/-- The per-worker network-adapter lambda installed when InfiniBand is
enabled: `lambda i: "mlx5_%d:1" % (i // 2)`. -/
def netDeviceName (i : Nat) : String :=
  "mlx5_" ++ toString (i / 2) ++ ":1"

/-- Shallow embedding of `DGX` from `src/dask_cuda/dgx.py`.  The Python
function first validates the configuration (raising `TypeError`), then
computes `ucx_net_devices`, then calls `worker_spec`, `get_ucx_env`,
builds the scheduler descriptor, and finally calls `SpecCluster`.  The
result records each collaborator invocation. -/
def DGX (a : DGXArgs) : Except DGXError DGXTrace :=
  if (a.enable_infiniband = true ∨ a.enable_nvlink = true) ∧ a.protocol ≠ some "ucx" then
    .error (.typeError "Enabling InfiniBand or NVLink requires protocol='ucx'")
  else
    let ucx_net_devices : UcxNetDevices :=
      if a.enable_infiniband then .fn netDeviceName else .str ""
    let spec : WorkerSpecArgs :=
      { interface := a.interface
        dashboard_address := a.dashboard_address
        threads_per_worker := a.threads_per_worker
        silence_logs := a.silence_logs
        CUDA_VISIBLE_DEVICES := a.CUDA_VISIBLE_DEVICES
        enable_tcp_over_ucx := a.enable_tcp_over_ucx
        enable_infiniband := a.enable_infiniband
        ucx_net_devices := ucx_net_devices
        enable_nvlink := a.enable_nvlink
        protocol := a.protocol
        kwargs := a.kwargs }
    let env_args : GetUcxEnvArgs :=
      { interface := a.interface
        enable_tcp := a.enable_tcp_over_ucx
        enable_infiniband := a.enable_infiniband
        enable_nvlink := a.enable_nvlink }
    let ucx_env := get_ucx_env env_args
    let scheduler : SchedulerDescriptor :=
      { cls := "Scheduler"
        options :=
          { interface := a.interface
            protocol := a.protocol
            dashboard_address := a.dashboard_address
            env := ucx_env } }
    .ok
      { worker_spec_args := spec
        get_ucx_env_args := env_args
        ucx_env := ucx_env
        scheduler := scheduler
        spec_cluster_args :=
          { workers := spec
            scheduler := scheduler
            silence_logs := a.silence_logs
            kwargs := a.kwargs } }

/-! ## Concrete runs used as witnesses -/

/-- A successful configuration with InfiniBand enabled over UCX and
TCP-over-UCX left at its default `False`. -/
def dgxIBArgs : DGXArgs :=
  { protocol := some "ucx", enable_infiniband := true }

/-- The worker-spec builder arguments produced by `DGX dgxIBArgs`. -/
def dgxIBSpec : WorkerSpecArgs :=
  { interface := none
    dashboard_address := ":8787"
    threads_per_worker := 1
    silence_logs := true
    CUDA_VISIBLE_DEVICES := none
    enable_tcp_over_ucx := false
    enable_infiniband := true
    ucx_net_devices := .fn netDeviceName
    enable_nvlink := false
    protocol := some "ucx"
    kwargs := [] }

/-- The scheduler descriptor produced by `DGX dgxIBArgs`. -/
def dgxIBScheduler : SchedulerDescriptor :=
  { cls := "Scheduler"
    options :=
      { interface := none
        protocol := some "ucx"
        dashboard_address := ":8787"
        env := { tcp := true, infiniband := true, nvlink := false } } }

/-- The full trace of `DGX dgxIBArgs`. -/
def dgxIBTrace : DGXTrace :=
  { worker_spec_args := dgxIBSpec
    get_ucx_env_args :=
      { interface := none
        enable_tcp := false
        enable_infiniband := true
        enable_nvlink := false }
    ucx_env := { tcp := true, infiniband := true, nvlink := false }
    scheduler := dgxIBScheduler
    spec_cluster_args :=
      { workers := dgxIBSpec
        scheduler := dgxIBScheduler
        silence_logs := true
        kwargs := [] } }

theorem DGX_dgxIB_eq : DGX dgxIBArgs = .ok dgxIBTrace := rfl

/-- A default configuration (both fabric toggles off, protocol `None`)
carrying one extra keyword argument. -/
def dgxPlainArgs : DGXArgs :=
  { kwargs := [("memory_limit", "1GB")] }

/-- The worker-spec builder arguments produced by `DGX dgxPlainArgs`. -/
def dgxPlainSpec : WorkerSpecArgs :=
  { interface := none
    dashboard_address := ":8787"
    threads_per_worker := 1
    silence_logs := true
    CUDA_VISIBLE_DEVICES := none
    enable_tcp_over_ucx := false
    enable_infiniband := false
    ucx_net_devices := .str ""
    enable_nvlink := false
    protocol := none
    kwargs := [("memory_limit", "1GB")] }

/-- The scheduler descriptor produced by `DGX dgxPlainArgs`. -/
def dgxPlainScheduler : SchedulerDescriptor :=
  { cls := "Scheduler"
    options :=
      { interface := none
        protocol := none
        dashboard_address := ":8787"
        env := { tcp := false, infiniband := false, nvlink := false } } }

/-- The full trace of `DGX dgxPlainArgs`. -/
def dgxPlainTrace : DGXTrace :=
  { worker_spec_args := dgxPlainSpec
    get_ucx_env_args :=
      { interface := none
        enable_tcp := false
        enable_infiniband := false
        enable_nvlink := false }
    ucx_env := { tcp := false, infiniband := false, nvlink := false }
    scheduler := dgxPlainScheduler
    spec_cluster_args :=
      { workers := dgxPlainSpec
        scheduler := dgxPlainScheduler
        silence_logs := true
        kwargs := [("memory_limit", "1GB")] } }

theorem DGX_dgxPlain_eq : DGX dgxPlainArgs = .ok dgxPlainTrace := rfl

/-- A successful configuration with NVLink enabled but InfiniBand off. -/
def dgxNVArgs : DGXArgs :=
  { protocol := some "ucx", enable_nvlink := true }

/-- The worker-spec builder arguments produced by `DGX dgxNVArgs`. -/
def dgxNVSpec : WorkerSpecArgs :=
  { interface := none
    dashboard_address := ":8787"
    threads_per_worker := 1
    silence_logs := true
    CUDA_VISIBLE_DEVICES := none
    enable_tcp_over_ucx := false
    enable_infiniband := false
    ucx_net_devices := .str ""
    enable_nvlink := true
    protocol := some "ucx"
    kwargs := [] }

/-- The scheduler descriptor produced by `DGX dgxNVArgs`. -/
def dgxNVScheduler : SchedulerDescriptor :=
  { cls := "Scheduler"
    options :=
      { interface := none
        protocol := some "ucx"
        dashboard_address := ":8787"
        env := { tcp := true, infiniband := false, nvlink := true } } }

/-- The full trace of `DGX dgxNVArgs`. -/
def dgxNVTrace : DGXTrace :=
  { worker_spec_args := dgxNVSpec
    get_ucx_env_args :=
      { interface := none
        enable_tcp := false
        enable_infiniband := false
        enable_nvlink := true }
    ucx_env := { tcp := true, infiniband := false, nvlink := true }
    scheduler := dgxNVScheduler
    spec_cluster_args :=
      { workers := dgxNVSpec
        scheduler := dgxNVScheduler
        silence_logs := true
        kwargs := [] } }

theorem DGX_dgxNV_eq : DGX dgxNVArgs = .ok dgxNVTrace := rfl

/-! ## Claim theorems -/

/-- C1: `DGX` raises `TypeError` if and only if `enable_infiniband` or
`enable_nvlink` is true while `protocol` is not `"ucx"`; for every other
combination of arguments the validation passes and `DGX` itself raises no
error. -/
theorem DGX_typeError_iff (a : DGXArgs) :
    (∃ msg, DGX a = .error (.typeError msg)) ↔
      ((a.enable_infiniband = true ∨ a.enable_nvlink = true) ∧ a.protocol ≠ some "ucx") := by
  unfold DGX
  split
  · simp_all
  · simp_all

/-- C2: whenever either fabric toggle is on and `protocol` is not
`"ucx"`, `DGX` fails with the configuration `TypeError` before invoking
any collaborator (the error branch precedes the `worker_spec`,
`get_ucx_env` and `SpecCluster` calls in the source), so no trace of
collaborator invocations and no cluster handle is produced. -/
theorem DGX_fails_before_collaborators (a : DGXArgs)
    (h : (a.enable_infiniband = true ∨ a.enable_nvlink = true) ∧ a.protocol ≠ some "ucx") :
    DGX a = .error (.typeError "Enabling InfiniBand or NVLink requires protocol='ucx'") ∧
      (DGX a).toOption = none := by
  unfold DGX
  rw [if_pos h]
  exact ⟨rfl, rfl⟩

/-- Witness for C2 at `enable_infiniband := true`, `protocol := "tcp"`. -/
theorem DGX_fails_before_collaborators_witness :
    DGX { enable_infiniband := true, protocol := some "tcp" } =
        .error (.typeError "Enabling InfiniBand or NVLink requires protocol='ucx'") ∧
      (DGX { enable_infiniband := true, protocol := some "tcp" }).toOption = none :=
  DGX_fails_before_collaborators { enable_infiniband := true, protocol := some "tcp" }
    (by decide)

/-- C3: when `enable_infiniband` is true (and the call succeeds), the
`ucx_net_devices` value passed to the worker-spec builder is the
per-worker function mapping index `i` to `"mlx5_" ++ (i / 2) ++ ":1"`,
so GPU indices 0–7 are assigned adapter indices 0,0,1,1,2,2,3,3. -/
theorem DGX_net_devices_fn (a : DGXArgs) (t : DGXTrace)
    (hib : a.enable_infiniband = true) (h : DGX a = .ok t) :
    t.worker_spec_args.ucx_net_devices = .fn netDeviceName ∧
      (∀ i : Nat, netDeviceName i = "mlx5_" ++ toString (i / 2) ++ ":1") ∧
      (List.range 8).map netDeviceName =
        ["mlx5_0:1", "mlx5_0:1", "mlx5_1:1", "mlx5_1:1",
         "mlx5_2:1", "mlx5_2:1", "mlx5_3:1", "mlx5_3:1"] := by
  unfold DGX at h
  split at h
  · exact absurd h (by simp)
  · rw [Except.ok.injEq] at h
    subst h
    exact ⟨by simp [hib], fun i => rfl, by decide⟩

/-- Witness for C3 at the InfiniBand-over-UCX configuration; the
universally quantified conjunct is instantiated at index 5. -/
theorem DGX_net_devices_fn_witness :
    dgxIBTrace.worker_spec_args.ucx_net_devices = .fn netDeviceName ∧
      netDeviceName 5 = "mlx5_" ++ toString (5 / 2) ++ ":1" ∧
      (List.range 8).map netDeviceName =
        ["mlx5_0:1", "mlx5_0:1", "mlx5_1:1", "mlx5_1:1",
         "mlx5_2:1", "mlx5_2:1", "mlx5_3:1", "mlx5_3:1"] :=
  have h := DGX_net_devices_fn dgxIBArgs dgxIBTrace rfl DGX_dgxIB_eq
  ⟨h.1, h.2.1 5, h.2.2⟩

/-- C4: for every successful call, the scheduler descriptor's `protocol`
and `dashboard_address` options equal the caller-supplied arguments
unmodified, and `dashboard_address` defaults to `":8787"`. -/
theorem DGX_scheduler_passthrough (a : DGXArgs) (t : DGXTrace)
    (h : DGX a = .ok t) :
    t.scheduler.options.protocol = a.protocol ∧
      t.scheduler.options.dashboard_address = a.dashboard_address ∧
      ({} : DGXArgs).dashboard_address = ":8787" := by
  unfold DGX at h
  split at h
  · exact absurd h (by simp)
  · rw [Except.ok.injEq] at h
    subst h
    exact ⟨rfl, rfl, rfl⟩

/-- Witness for C4 at the InfiniBand-over-UCX configuration. -/
theorem DGX_scheduler_passthrough_witness :
    dgxIBTrace.scheduler.options.protocol = dgxIBArgs.protocol ∧
      dgxIBTrace.scheduler.options.dashboard_address = dgxIBArgs.dashboard_address ∧
      ({} : DGXArgs).dashboard_address = ":8787" :=
  DGX_scheduler_passthrough dgxIBArgs dgxIBTrace DGX_dgxIB_eq

/-- C5 counterexample: with `enable_infiniband := true`,
`protocol := "ucx"` and `enable_tcp_over_ucx := false`, the call
succeeds but the environment builder is invoked with
`enable_tcp = false` — the source passes the caller's
`enable_tcp_over_ucx` through unmodified, so the builder is NOT invoked
with TCP-over-fabric enabled. -/
theorem DGX_env_builder_tcp_counterexample :
    dgxIBArgs.enable_tcp_over_ucx = false ∧
      dgxIBArgs.enable_infiniband = true ∧
      DGX dgxIBArgs = .ok dgxIBTrace ∧
      dgxIBTrace.get_ucx_env_args.enable_tcp = false :=
  ⟨rfl, rfl, rfl, rfl⟩

/-- C5 (amended): when a fabric toggle is on and the call succeeds, the
environment builder receives the caller's `enable_tcp_over_ucx`
unchanged (not forced to true), yet TCP over UCX is effectively enabled
in the environment mapping produced for the scheduler, because the
spec-modelled `get_ucx_env` enables TCP whenever either fabric toggle is
on. -/
theorem DGX_tcp_effectively_enabled (a : DGXArgs) (t : DGXTrace)
    (hfab : a.enable_infiniband = true ∨ a.enable_nvlink = true)
    (h : DGX a = .ok t) :
    t.get_ucx_env_args.enable_tcp = a.enable_tcp_over_ucx ∧
      t.ucx_env = get_ucx_env t.get_ucx_env_args ∧
      t.scheduler.options.env = t.ucx_env ∧
      t.ucx_env.tcp = true := by
  unfold DGX at h
  split at h
  · exact absurd h (by simp)
  · rw [Except.ok.injEq] at h
    subst h
    refine ⟨rfl, rfl, rfl, ?_⟩
    rcases hfab with hfab | hfab <;> simp [get_ucx_env, hfab]

/-- Witness for the amended C5 at the InfiniBand-over-UCX configuration
with `enable_tcp_over_ucx := false`. -/
theorem DGX_tcp_effectively_enabled_witness :
    dgxIBTrace.get_ucx_env_args.enable_tcp = dgxIBArgs.enable_tcp_over_ucx ∧
      dgxIBTrace.ucx_env = get_ucx_env dgxIBTrace.get_ucx_env_args ∧
      dgxIBTrace.scheduler.options.env = dgxIBTrace.ucx_env ∧
      dgxIBTrace.ucx_env.tcp = true :=
  DGX_tcp_effectively_enabled dgxIBArgs dgxIBTrace (Or.inl rfl) DGX_dgxIB_eq

/-- C6: with both fabric toggles off, the environment builder is invoked
with `enable_infiniband = false` and `enable_nvlink = false`, the
resulting (spec-modelled) environment mapping sets no fabric-specific
variables, and no per-worker network-adapter function is installed
(`ucx_net_devices` stays the empty string). -/
theorem DGX_no_fabric_env (a : DGXArgs) (t : DGXTrace)
    (hib : a.enable_infiniband = false) (hnv : a.enable_nvlink = false)
    (h : DGX a = .ok t) :
    t.get_ucx_env_args.enable_infiniband = false ∧
      t.get_ucx_env_args.enable_nvlink = false ∧
      t.ucx_env.infiniband = false ∧
      t.ucx_env.nvlink = false ∧
      t.worker_spec_args.ucx_net_devices = .str "" := by
  unfold DGX at h
  split at h
  · exact absurd h (by simp)
  · rw [Except.ok.injEq] at h
    subst h
    exact ⟨hib, hnv, by simp [get_ucx_env, hib], by simp [get_ucx_env, hnv],
      by simp [hib]⟩

/-- Witness for C6 at the all-defaults configuration. -/
theorem DGX_no_fabric_env_witness :
    dgxPlainTrace.get_ucx_env_args.enable_infiniband = false ∧
      dgxPlainTrace.get_ucx_env_args.enable_nvlink = false ∧
      dgxPlainTrace.ucx_env.infiniband = false ∧
      dgxPlainTrace.ucx_env.nvlink = false ∧
      dgxPlainTrace.worker_spec_args.ucx_net_devices = .str "" :=
  DGX_no_fabric_env dgxPlainArgs dgxPlainTrace rfl rfl DGX_dgxPlain_eq

/-- C7: `DGX` is deterministic.  The embedding is a total pure function
of the argument record alone — it reads no global state and performs no
I/O — so two calls with equal arguments yield equal worker-spec builder
inputs, equal environment-builder inputs, equal scheduler descriptors
and equal cluster-constructor inputs. -/
theorem DGX_deterministic (a b : DGXArgs) (hab : a = b) (t t' : DGXTrace)
    (ha : DGX a = .ok t) (hb : DGX b = .ok t') :
    t.worker_spec_args = t'.worker_spec_args ∧
      t.get_ucx_env_args = t'.get_ucx_env_args ∧
      t.scheduler = t'.scheduler ∧
      t.spec_cluster_args = t'.spec_cluster_args := by
  subst hab
  rw [ha, Except.ok.injEq] at hb
  subst hb
  exact ⟨rfl, rfl, rfl, rfl⟩

/-- Witness for C7: two runs at the InfiniBand-over-UCX configuration. -/
theorem DGX_deterministic_witness :
    dgxIBTrace.worker_spec_args = dgxIBTrace.worker_spec_args ∧
      dgxIBTrace.get_ucx_env_args = dgxIBTrace.get_ucx_env_args ∧
      dgxIBTrace.scheduler = dgxIBTrace.scheduler ∧
      dgxIBTrace.spec_cluster_args = dgxIBTrace.spec_cluster_args :=
  DGX_deterministic dgxIBArgs dgxIBArgs rfl dgxIBTrace dgxIBTrace
    DGX_dgxIB_eq DGX_dgxIB_eq

/-- C8: when `enable_infiniband` is false, the `ucx_net_devices` value
passed to the worker-spec builder is the empty string, even when
`enable_nvlink` is true. -/
theorem DGX_nvlink_no_net_devices (a : DGXArgs) (t : DGXTrace)
    (hib : a.enable_infiniband = false) (h : DGX a = .ok t) :
    t.worker_spec_args.ucx_net_devices = .str "" := by
  unfold DGX at h
  split at h
  · exact absurd h (by simp)
  · rw [Except.ok.injEq] at h
    subst h
    simp [hib]

/-- Witness for C8 at the NVLink-only configuration
(`enable_nvlink := true`, `enable_infiniband` left false). -/
theorem DGX_nvlink_no_net_devices_witness :
    dgxNVTrace.worker_spec_args.ucx_net_devices = .str "" :=
  DGX_nvlink_no_net_devices dgxNVArgs dgxNVTrace rfl DGX_dgxNV_eq

/-- C9: setting `enable_tcp_over_ucx := true` with any protocol
(including `None`) raises no validation error as long as the fabric
toggles are off: the check examines only `enable_infiniband` and
`enable_nvlink`. -/
theorem DGX_tcp_flag_not_validated (a : DGXArgs)
    (hib : a.enable_infiniband = false) (hnv : a.enable_nvlink = false) :
    (DGX { a with enable_tcp_over_ucx := true }).toOption.isSome = true := by
  unfold DGX
  split
  · rename_i hcond
    simp only at hcond
    rcases hcond.1 with hc | hc
    · exact absurd hc (by simp [hib])
    · exact absurd hc (by simp [hnv])
  · rfl

/-- Witness for C9 at the all-defaults configuration (`protocol = None`)
with `enable_tcp_over_ucx := true`. -/
theorem DGX_tcp_flag_not_validated_witness :
    (DGX { ({} : DGXArgs) with enable_tcp_over_ucx := true }).toOption.isSome = true :=
  DGX_tcp_flag_not_validated {} rfl rfl

/-- C10: every extra keyword argument is forwarded unchanged to both the
worker-spec builder and the cluster constructor; the recognized named
options travel as dedicated fields, never inside `kwargs`. -/
theorem DGX_kwargs_forwarded (a : DGXArgs) (t : DGXTrace)
    (h : DGX a = .ok t) :
    t.worker_spec_args.kwargs = a.kwargs ∧
      t.spec_cluster_args.kwargs = a.kwargs := by
  unfold DGX at h
  split at h
  · exact absurd h (by simp)
  · rw [Except.ok.injEq] at h
    subst h
    exact ⟨rfl, rfl⟩

/-- Witness for C10 at the configuration carrying an extra keyword
argument. -/
theorem DGX_kwargs_forwarded_witness :
    dgxPlainTrace.worker_spec_args.kwargs = dgxPlainArgs.kwargs ∧
      dgxPlainTrace.spec_cluster_args.kwargs = dgxPlainArgs.kwargs :=
  DGX_kwargs_forwarded dgxPlainArgs dgxPlainTrace DGX_dgxPlain_eq

end DaskCudaDGX
